import Mathlib

/-!
Verification of the request-dispatch core of the `nomad-rs-api` client
library (`src/lib.rs`, `src/option.rs`): the request builder, the two
option appliers, the response dispatchers and the error taxonomy.

The HTTP request under construction is shallowly embedded as a record of
the method, the url, the accumulated query parameters and the accumulated
headers.  The two primitives the source calls on `reqwest::RequestBuilder`
are modelled with their append semantics:

* `query(&[(k, v)])` appends the pairs to the query string.  The upstream
  documentation states this explicitly: the method appends and does not
  overwrite, an existing key simply shows up twice in the query string.
* `header(k, v)` appends the value to the header map
  (`headers_mut().append(key, value)` upstream), so a repeated key yields
  a repeated header rather than a replacement.

Rust `HashMap` valued option fields (`params`, `headers`) are modelled as
association lists; the list order stands for the map's iteration order,
which the source does not constrain.  `u64`/`i32`/`bool` query values are
serialised with `to_string`, modelled by decimal / `true`/`false`
rendering.
-/

namespace NomadApi

/-- The pending request: method, url, accumulated query parameters and
accumulated headers, in insertion order. -/
structure RequestBuilder where
  method : String
  url : String
  queryParams : List (String × String)
  headers : List (String × String)
deriving Repr, DecidableEq

/-- Model of `reqwest::RequestBuilder::query`: appends the given pairs to
the query string, never overwriting an existing key. -/
def RequestBuilder.query (r : RequestBuilder) (ps : List (String × String)) : RequestBuilder :=
  { r with queryParams := r.queryParams ++ ps }

/-- Model of `reqwest::RequestBuilder::header`: appends the pair to the
header map (upstream uses `HeaderMap::append`), never replacing. -/
def RequestBuilder.header (r : RequestBuilder) (key value : String) : RequestBuilder :=
  { r with headers := r.headers ++ [(key, value)] }

/-- Appending a whole list of headers; used to state what a sequence of
`header` calls amounts to. -/
def RequestBuilder.add_headers (r : RequestBuilder) (hs : List (String × String)) : RequestBuilder :=
  { r with headers := r.headers ++ hs }

/-- `Config` from `src/lib.rs`: base address, default region, optional
static token. -/
structure Config where
  address : String
  region : String
  token : Option String
deriving Repr, DecidableEq

/-- `Config::default` from `src/lib.rs`. -/
def Config.default_config : Config :=
  { address := "http://127.0.0.1:4646", region := "global", token := none }

/-- `QueryOptions` from `src/option.rs`.  The source fields `namespace`
and `prefix` are Lean keywords, so they are rendered `namespace_` and
`prefix_`; `wait_index`/`wait_time` are `u64` (modelled `Nat`), `per_page`
is `i32` (modelled `Int`), the two maps are association lists. -/
structure QueryOptions where
  region : Option String
  namespace_ : Option String
  allow_stale : Option Bool
  wait_index : Option Nat
  wait_time : Option Nat
  prefix_ : Option String
  params : Option (List (String × String))
  headers : Option (List (String × String))
  auth_token : Option String
  filter : Option String
  per_page : Option Int
  next_token : Option String
  reverse : Option Bool
deriving Repr, DecidableEq

/-- `QueryOptions::new` from `src/option.rs`: every field absent. -/
def QueryOptions.new : QueryOptions :=
  { region := none, namespace_ := none, allow_stale := none, wait_index := none,
    wait_time := none, prefix_ := none, params := none, headers := none,
    auth_token := none, filter := none, per_page := none, next_token := none,
    reverse := none }

/-- `QueryOptions::with_region`. -/
def QueryOptions.with_region (self : QueryOptions) (region : String) : QueryOptions :=
  { self with region := some region }

/-- `QueryOptions::with_namespace`. -/
def QueryOptions.with_namespace (self : QueryOptions) (ns : String) : QueryOptions :=
  { self with namespace_ := some ns }

/-- `QueryOptions::with_allow_stale`. -/
def QueryOptions.with_allow_stale (self : QueryOptions) (allow_stale : Bool) : QueryOptions :=
  { self with allow_stale := some allow_stale }

/-- `QueryOptions::with_wait_index`. -/
def QueryOptions.with_wait_index (self : QueryOptions) (wait_index : Nat) : QueryOptions :=
  { self with wait_index := some wait_index }

/-- `QueryOptions::with_wait_time`. -/
def QueryOptions.with_wait_time (self : QueryOptions) (wait_time : Nat) : QueryOptions :=
  { self with wait_time := some wait_time }

/-- `QueryOptions::with_prefix`. -/
def QueryOptions.with_prefix (self : QueryOptions) (p : String) : QueryOptions :=
  { self with prefix_ := some p }

/-- `QueryOptions::with_params`. -/
def QueryOptions.with_params (self : QueryOptions) (params : List (String × String)) : QueryOptions :=
  { self with params := some params }

/-- `QueryOptions::with_headers`. -/
def QueryOptions.with_headers (self : QueryOptions) (headers : List (String × String)) : QueryOptions :=
  { self with headers := some headers }

/-- `QueryOptions::with_auth_token`. -/
def QueryOptions.with_auth_token (self : QueryOptions) (auth_token : String) : QueryOptions :=
  { self with auth_token := some auth_token }

/-- `QueryOptions::with_filter`. -/
def QueryOptions.with_filter (self : QueryOptions) (filter : String) : QueryOptions :=
  { self with filter := some filter }

/-- `QueryOptions::with_per_page`. -/
def QueryOptions.with_per_page (self : QueryOptions) (per_page : Int) : QueryOptions :=
  { self with per_page := some per_page }

/-- `QueryOptions::with_next_token`. -/
def QueryOptions.with_next_token (self : QueryOptions) (next_token : String) : QueryOptions :=
  { self with next_token := some next_token }

/-- `QueryOptions::with_reverse`. -/
def QueryOptions.with_reverse (self : QueryOptions) (reverse : Bool) : QueryOptions :=
  { self with reverse := some reverse }

/-- `WriteOptions` from `src/option.rs` (`namespace` rendered
`namespace_`). -/
structure WriteOptions where
  region : Option String
  namespace_ : Option String
  auth_token : Option String
  headers : Option (List (String × String))
  idempotency_token : Option String
deriving Repr, DecidableEq

/-- `WriteOptions::new`: every field absent. -/
def WriteOptions.new : WriteOptions :=
  { region := none, namespace_ := none, auth_token := none, headers := none,
    idempotency_token := none }

/-- `WriteOptions::with_region`. -/
def WriteOptions.with_region (self : WriteOptions) (region : String) : WriteOptions :=
  { self with region := some region }

/-- `WriteOptions::with_namespace`. -/
def WriteOptions.with_namespace (self : WriteOptions) (ns : String) : WriteOptions :=
  { self with namespace_ := some ns }

/-- `WriteOptions::with_auth_token`. -/
def WriteOptions.with_auth_token (self : WriteOptions) (auth_token : String) : WriteOptions :=
  { self with auth_token := some auth_token }

/-- `WriteOptions::with_headers`. -/
def WriteOptions.with_headers (self : WriteOptions) (headers : List (String × String)) : WriteOptions :=
  { self with headers := some headers }

/-- `WriteOptions::with_idempotency_token`. -/
def WriteOptions.with_idempotency_token (self : WriteOptions) (token : String) : WriteOptions :=
  { self with idempotency_token := some token }

/-- Rust `bool::to_string`. -/
def bool_string (b : Bool) : String :=
  if b then "true" else "false"

/-- Rust `u64::to_string` (decimal). -/
def u64_string (n : Nat) : String :=
  toString n

/-- Rust `i32::to_string` (decimal, with sign). -/
def i32_string (i : Int) : String :=
  toString i

/-- `Nomad::build_request` from `src/lib.rs`: url is `address ++ path`,
the default region is appended as a query parameter, and the static token
(when configured) is attached as an `X-Nomad-Token` header. -/
def build_request (config : Config) (method : String) (path : String) : RequestBuilder :=
  let request : RequestBuilder :=
    { method := method, url := config.address ++ path, queryParams := [], headers := [] }
  let request := request.query [("region", config.region)]
  match config.token with
  | some token => request.header "X-Nomad-Token" token
  | none => request

/-- One `if let Some(v) = opt { request = request.query(&[(key, v)]) }`
step of the option appliers. -/
def apply_opt_query (key : String) (value : Option String) (request : RequestBuilder) :
    RequestBuilder :=
  match value with
  | some v => request.query [(key, v)]
  | none => request

/-- One `if let Some(v) = opt { request = request.header(key, v) }` step
of the option appliers. -/
def apply_opt_header (key : String) (value : Option String) (request : RequestBuilder) :
    RequestBuilder :=
  match value with
  | some v => request.header key v
  | none => request

/-- The `params` loop: each map entry appended as its own query pair. -/
def apply_opt_params (params : Option (List (String × String))) (request : RequestBuilder) :
    RequestBuilder :=
  match params with
  | some ps => ps.foldl (fun r kv => r.query [(kv.1, kv.2)]) request
  | none => request

/-- The `headers` loop: each map entry appended as a header. -/
def apply_opt_headers (headers : Option (List (String × String))) (request : RequestBuilder) :
    RequestBuilder :=
  match headers with
  | some hs => hs.foldl (fun r kv => r.header kv.1 kv.2) request
  | none => request

/-- `Nomad::set_request_query_options` from `src/lib.rs`, step for step in
source order: region, namespace, allow_stale, wait_index, wait_time,
prefix, params map, headers map, auth token, filter, per_page, next_token,
reverse.  Numeric and boolean fields go through `to_string`. -/
def set_request_query_options (req : RequestBuilder) (opts : QueryOptions) : RequestBuilder :=
  let request := req
  let request := apply_opt_query "region" opts.region request
  let request := apply_opt_query "namespace" opts.namespace_ request
  let request := apply_opt_query "allow_stale" (opts.allow_stale.map bool_string) request
  let request := apply_opt_query "wait_index" (opts.wait_index.map u64_string) request
  let request := apply_opt_query "wait_time" (opts.wait_time.map u64_string) request
  let request := apply_opt_query "prefix" opts.prefix_ request
  let request := apply_opt_params opts.params request
  let request := apply_opt_headers opts.headers request
  let request := apply_opt_header "X-Nomad-Token" opts.auth_token request
  let request := apply_opt_query "filter" opts.filter request
  let request := apply_opt_query "per_page" (opts.per_page.map i32_string) request
  let request := apply_opt_query "next_token" opts.next_token request
  let request := apply_opt_query "reverse" (opts.reverse.map bool_string) request
  request

/-- `Nomad::set_request_write_options` from `src/lib.rs`, step for step in
source order: region, namespace, auth token, headers map, idempotency
token.  Note the source applies the auth token BEFORE the headers map. -/
def set_request_write_options (req : RequestBuilder) (opts : WriteOptions) : RequestBuilder :=
  let request := req
  let request := apply_opt_query "region" opts.region request
  let request := apply_opt_query "namespace" opts.namespace_ request
  let request := apply_opt_header "X-Nomad-Token" opts.auth_token request
  let request := apply_opt_headers opts.headers request
  let request := apply_opt_query "idempotency_token" opts.idempotency_token request
  request

/-- The query pair an optional field contributes: one pair when present,
nothing when absent. -/
def opt_pair (key : String) (value : Option String) : List (String × String) :=
  match value with
  | some v => [(key, v)]
  | none => []

/-- The full list of query pairs `set_request_query_options` appends, in
application order. -/
def query_opts_query_delta (opts : QueryOptions) : List (String × String) :=
  opt_pair "region" opts.region ++
  opt_pair "namespace" opts.namespace_ ++
  opt_pair "allow_stale" (opts.allow_stale.map bool_string) ++
  opt_pair "wait_index" (opts.wait_index.map u64_string) ++
  opt_pair "wait_time" (opts.wait_time.map u64_string) ++
  opt_pair "prefix" opts.prefix_ ++
  opts.params.getD [] ++
  opt_pair "filter" opts.filter ++
  opt_pair "per_page" (opts.per_page.map i32_string) ++
  opt_pair "next_token" opts.next_token ++
  opt_pair "reverse" (opts.reverse.map bool_string)

/-- The full list of headers `set_request_query_options` appends: the
header map first, then the auth-token override. -/
def query_opts_header_delta (opts : QueryOptions) : List (String × String) :=
  opts.headers.getD [] ++ opt_pair "X-Nomad-Token" opts.auth_token

/-- The full list of query pairs `set_request_write_options` appends. -/
def write_opts_query_delta (opts : WriteOptions) : List (String × String) :=
  opt_pair "region" opts.region ++
  opt_pair "namespace" opts.namespace_ ++
  opt_pair "idempotency_token" opts.idempotency_token

/-- The full list of headers `set_request_write_options` appends: the
auth-token override first, then the header map. -/
def write_opts_header_delta (opts : WriteOptions) : List (String × String) :=
  opt_pair "X-Nomad-Token" opts.auth_token ++ opts.headers.getD []

/-- The values carried by the entries with the given key (of a header
list or a query-parameter list), in order. -/
def key_values (key : String) (entries : List (String × String)) : List String :=
  (entries.filter (fun kv => kv.1 == key)).map (fun kv => kv.2)

/-- Rendering of the accumulated query pairs as a query string (the
claims only exercise values that need no percent-encoding). -/
def render_query (ps : List (String × String)) : String :=
  String.intercalate "&" (ps.map (fun kv => kv.1 ++ "=" ++ kv.2))

/-- Replace-or-append on a key-value list: every existing entry with the
key is dropped and the new entry is appended.  This is NOT what the code
does; it is the "later entry overrides the earlier one" semantics the
spec describes, defined only to compare the spec's words with the code. -/
def upsert (entries : List (String × String)) (key value : String) : List (String × String) :=
  entries.filter (fun kv => kv.1 != key) ++ [(key, value)]

/-- Override-style query update (spec's words, not the code). -/
def RequestBuilder.query_override (r : RequestBuilder) (key value : String) : RequestBuilder :=
  { r with queryParams := upsert r.queryParams key value }

/-- Override-style header update (spec's words, not the code). -/
def RequestBuilder.header_override (r : RequestBuilder) (key value : String) : RequestBuilder :=
  { r with headers := upsert r.headers key value }

/-- The write-options applier as the spec/claim words it, for comparison
with `set_request_write_options`: fields applied in the documented order
region, namespace, generic header map, auth-token override, idempotency
token, with later entries overriding earlier ones sharing a key. -/
def claimed_set_request_write_options (req : RequestBuilder) (opts : WriteOptions) :
    RequestBuilder :=
  let request := req
  let request := match opts.region with
    | some v => request.query_override "region" v
    | none => request
  let request := match opts.namespace_ with
    | some v => request.query_override "namespace" v
    | none => request
  let request := match opts.headers with
    | some hs => hs.foldl (fun r kv => r.header_override kv.1 kv.2) request
    | none => request
  let request := match opts.auth_token with
    | some v => request.header_override "X-Nomad-Token" v
    | none => request
  let request := match opts.idempotency_token with
    | some v => request.query_override "idempotency_token" v
    | none => request
  request

/-- `ClientError` from `src/lib.rs`: the four-way error taxonomy. -/
inductive ClientError where
  | RequestCreationError : String → ClientError
  | DeserializationError : String → ClientError
  | ServerError : Nat → String → ClientError
  | NetworkError : String → ClientError
deriving Repr, DecidableEq

/-- `http::StatusCode::is_success`: 200 ≤ status ≤ 299. -/
def is_success (status : Nat) : Bool :=
  decide (200 ≤ status ∧ status < 300)

/-- The externally determined view of one executed HTTP exchange: the
status, the outcome `response.json::<T>()` would produce, and the outcome
`response.text()` would produce.  Each send function consumes at most one
of the two body readings. -/
structure HttpResponse (T : Type) where
  status : Nat
  json_result : Except String T
  text_result : Except String String

/-- Result of a dispatch together with how many transport round trips it
performed. -/
structure DispatchOutcome (R : Type) where
  result : Except ClientError R
  network_calls : Nat

/-- `Nomad::send_with_response` from `src/lib.rs`.  `build_result` is the
outcome of `req.build()` (the error carries `error.to_string()`), and
`exec_result` the outcome of `http_client.execute(req).await`, supplied
as oracle inputs; the function mirrors the source's classification and
counts the transport round trips it performs. -/
def send_with_response {T : Type} (build_result : Except String Unit)
    (exec_result : Except String (HttpResponse T)) : DispatchOutcome T :=
  match build_result with
  | Except.error error =>
      { result := Except.error (ClientError.RequestCreationError error), network_calls := 0 }
  | Except.ok _ =>
    match exec_result with
    | Except.ok response =>
        let status := response.status
        if is_success response.status then
          match response.json_result with
          | Except.ok body => { result := Except.ok body, network_calls := 1 }
          | Except.error err =>
              { result := Except.error (ClientError.DeserializationError err), network_calls := 1 }
        else
          match response.text_result with
          | Except.ok body =>
              { result := Except.error (ClientError.ServerError status body), network_calls := 1 }
          | Except.error err =>
              { result := Except.error (ClientError.NetworkError err), network_calls := 1 }
    | Except.error err =>
        { result := Except.error (ClientError.NetworkError err), network_calls := 1 }

/-- `Nomad::send_without_response` from `src/lib.rs`: same shape, but on
a success status it returns `Ok(())` without touching the body. -/
def send_without_response {T : Type} (build_result : Except String Unit)
    (exec_result : Except String (HttpResponse T)) : DispatchOutcome Unit :=
  match build_result with
  | Except.error error =>
      { result := Except.error (ClientError.RequestCreationError error), network_calls := 0 }
  | Except.ok _ =>
    match exec_result with
    | Except.ok response =>
        let status := response.status
        match is_success response.status with
        | true => { result := Except.ok (), network_calls := 1 }
        | false =>
          match response.text_result with
          | Except.ok body =>
              { result := Except.error (ClientError.ServerError status body), network_calls := 1 }
          | Except.error err =>
              { result := Except.error (ClientError.NetworkError err), network_calls := 1 }
    | Except.error err =>
        { result := Except.error (ClientError.NetworkError err), network_calls := 1 }

end NomadApi

namespace NomadApi

theorem query_query (r : RequestBuilder) (a b : List (String × String)) :
    (r.query a).query b = r.query (a ++ b) := by
  simp [RequestBuilder.query, List.append_assoc]

theorem add_headers_add_headers (r : RequestBuilder) (a b : List (String × String)) :
    (r.add_headers a).add_headers b = r.add_headers (a ++ b) := by
  simp [RequestBuilder.add_headers, List.append_assoc]

theorem add_headers_query (r : RequestBuilder) (h : List (String × String))
    (a : List (String × String)) :
    (r.add_headers h).query a = (r.query a).add_headers h := by
  simp [RequestBuilder.add_headers, RequestBuilder.query]

theorem query_nil (r : RequestBuilder) : r.query [] = r := by
  simp [RequestBuilder.query]

theorem add_headers_nil (r : RequestBuilder) : r.add_headers [] = r := by
  simp [RequestBuilder.add_headers]

theorem header_eq_add_headers (r : RequestBuilder) (k v : String) :
    r.header k v = r.add_headers [(k, v)] := by
  simp [RequestBuilder.header, RequestBuilder.add_headers]

theorem apply_opt_query_eq (key : String) (value : Option String) (r : RequestBuilder) :
    apply_opt_query key value r = r.query (opt_pair key value) := by
  cases value <;> simp [apply_opt_query, opt_pair, RequestBuilder.query]

theorem apply_opt_header_eq (key : String) (value : Option String) (r : RequestBuilder) :
    apply_opt_header key value r = r.add_headers (opt_pair key value) := by
  cases value <;>
    simp [apply_opt_header, opt_pair, RequestBuilder.header, RequestBuilder.add_headers]

theorem foldl_query (ps : List (String × String)) (r : RequestBuilder) :
    ps.foldl (fun r kv => r.query [(kv.1, kv.2)]) r = r.query ps := by
  induction ps generalizing r with
  | nil => simp [query_nil]
  | cons kv rest ih =>
      simp only [List.foldl_cons, ih, query_query, List.singleton_append]

theorem foldl_header (hs : List (String × String)) (r : RequestBuilder) :
    hs.foldl (fun r kv => r.header kv.1 kv.2) r = r.add_headers hs := by
  induction hs generalizing r with
  | nil => simp [add_headers_nil]
  | cons kv rest ih =>
      rw [List.foldl_cons, ih]
      simp [header_eq_add_headers, add_headers_add_headers]

theorem apply_opt_params_eq (params : Option (List (String × String))) (r : RequestBuilder) :
    apply_opt_params params r = r.query (params.getD []) := by
  cases params <;> simp [apply_opt_params, foldl_query, query_nil, Option.getD]

theorem apply_opt_headers_eq (headers : Option (List (String × String))) (r : RequestBuilder) :
    apply_opt_headers headers r = r.add_headers (headers.getD []) := by
  cases headers <;> simp [apply_opt_headers, foldl_header, add_headers_nil, Option.getD]

/-- Structural characterisation of the query-options applier: it appends
`query_opts_query_delta` to the query pairs and `query_opts_header_delta`
to the headers, and changes nothing else. -/
theorem set_request_query_options_eq (req : RequestBuilder) (opts : QueryOptions) :
    set_request_query_options req opts =
      (req.query (query_opts_query_delta opts)).add_headers (query_opts_header_delta opts) := by
  simp only [set_request_query_options, apply_opt_query_eq, apply_opt_header_eq,
    apply_opt_params_eq, apply_opt_headers_eq, add_headers_query, query_query,
    add_headers_add_headers]
  simp only [query_opts_query_delta, query_opts_header_delta, List.append_assoc]

/-- Structural characterisation of the write-options applier. -/
theorem set_request_write_options_eq (req : RequestBuilder) (opts : WriteOptions) :
    set_request_write_options req opts =
      (req.query (write_opts_query_delta opts)).add_headers (write_opts_header_delta opts) := by
  simp only [set_request_write_options, apply_opt_query_eq, apply_opt_header_eq,
    apply_opt_headers_eq, add_headers_query, query_query, add_headers_add_headers]
  simp only [write_opts_query_delta, write_opts_header_delta, List.append_assoc]

/-- `build_request` in closed form. -/
theorem build_request_eq (config : Config) (method path : String) :
    build_request config method path =
      { method := method, url := config.address ++ path,
        queryParams := [("region", config.region)],
        headers := opt_pair "X-Nomad-Token" config.token } := by
  cases h : config.token <;>
    simp [build_request, RequestBuilder.query, RequestBuilder.header, opt_pair, h]

theorem queryParams_set_query_options (req : RequestBuilder) (opts : QueryOptions) :
    (set_request_query_options req opts).queryParams =
      req.queryParams ++ query_opts_query_delta opts := by
  rw [set_request_query_options_eq]; rfl

theorem headers_set_query_options (req : RequestBuilder) (opts : QueryOptions) :
    (set_request_query_options req opts).headers =
      req.headers ++ query_opts_header_delta opts := by
  rw [set_request_query_options_eq]; rfl

theorem queryParams_set_write_options (req : RequestBuilder) (opts : WriteOptions) :
    (set_request_write_options req opts).queryParams =
      req.queryParams ++ write_opts_query_delta opts := by
  rw [set_request_write_options_eq]; rfl

theorem headers_set_write_options (req : RequestBuilder) (opts : WriteOptions) :
    (set_request_write_options req opts).headers =
      req.headers ++ write_opts_header_delta opts := by
  rw [set_request_write_options_eq]; rfl

theorem key_values_append (k : String) (a b : List (String × String)) :
    key_values k (a ++ b) = key_values k a ++ key_values k b := by
  simp [key_values, List.filter_append]

theorem set_query_options_new_id (req : RequestBuilder) :
    set_request_query_options req QueryOptions.new = req := by
  rw [set_request_query_options_eq]
  show (req.query []).add_headers [] = req
  rw [query_nil, add_headers_nil]

theorem set_write_options_new_id (req : RequestBuilder) :
    set_request_write_options req WriteOptions.new = req := by
  rw [set_request_write_options_eq]
  show (req.query []).add_headers [] = req
  rw [query_nil, add_headers_nil]

theorem network_calls_with_ok {T : Type} (e : Except String (HttpResponse T)) :
    (send_with_response (Except.ok ()) e).network_calls = 1 := by
  cases e with
  | error m => rfl
  | ok resp =>
      simp only [send_with_response]
      split
      · split <;> rfl
      · split <;> rfl

theorem network_calls_without_ok {T : Type} (e : Except String (HttpResponse T)) :
    (send_without_response (Except.ok ()) e).network_calls = 1 := by
  cases e with
  | error m => rfl
  | ok resp =>
      simp only [send_without_response]
      split
      · rfl
      · split <;> rfl

/-- C1 (amended): with a static token configured and a per-call auth
token present, the request after building and option application does not
carry a single replaced `X-Nomad-Token` header; the override is appended
as an additional header.  For `QueryOptions` the override is the last
`X-Nomad-Token` header, after the default token and after any header-map
entry with that key; for `WriteOptions` it is appended after the default
token but before the header-map entries. -/
theorem c1_auth_token_appended_not_replaced (config : Config) (method path t : String)
    (ht : config.token = some t) :
    (∀ (opts : QueryOptions) (o : String), opts.auth_token = some o →
      key_values "X-Nomad-Token"
          (set_request_query_options (build_request config method path) opts).headers =
        t :: (key_values "X-Nomad-Token" (opts.headers.getD []) ++ [o])) ∧
    (∀ (opts : WriteOptions) (o : String), opts.auth_token = some o →
      key_values "X-Nomad-Token"
          (set_request_write_options (build_request config method path) opts).headers =
        t :: o :: key_values "X-Nomad-Token" (opts.headers.getD [])) := by
  constructor
  · intro opts o ho
    rw [headers_set_query_options, build_request_eq]
    simp [key_values_append, query_opts_header_delta, ht, ho, opt_pair, key_values]
  · intro opts o ho
    rw [headers_set_write_options, build_request_eq]
    simp [key_values_append, write_opts_header_delta, ht, ho, opt_pair, key_values]

/-- C1 witness: concrete client with static token `secret` and query
options overriding with `override`: the amended description holds. -/
theorem c1_witness :
    (({ address := "http://localhost:4646", region := "global",
        token := some "secret" } : Config).token = some "secret") ∧
    ((QueryOptions.new.with_auth_token "override").auth_token = some "override") ∧
    key_values "X-Nomad-Token"
        (set_request_query_options
          (build_request
            { address := "http://localhost:4646", region := "global", token := some "secret" }
            "GET" "/v1/jobs")
          (QueryOptions.new.with_auth_token "override")).headers =
      "secret" ::
        (key_values "X-Nomad-Token"
            ((QueryOptions.new.with_auth_token "override").headers.getD []) ++ ["override"]) :=
  ⟨rfl, rfl,
    (c1_auth_token_appended_not_replaced
        { address := "http://localhost:4646", region := "global", token := some "secret" }
        "GET" "/v1/jobs" "secret" rfl).1
      (QueryOptions.new.with_auth_token "override") "override" rfl⟩

/-- C1 fails as stated: with static token `secret` and override
`override`, the request does not carry exactly one `X-Nomad-Token`
header whose value is the override — it carries two (`secret` then
`override`). -/
theorem c1_counterexample :
    key_values "X-Nomad-Token"
        (set_request_query_options
          (build_request
            { address := "http://localhost:4646", region := "global", token := some "secret" }
            "GET" "/v1/jobs")
          (QueryOptions.new.with_auth_token "override")).headers =
      ["secret", "override"] ∧
    ¬ (key_values "X-Nomad-Token"
        (set_request_query_options
          (build_request
            { address := "http://localhost:4646", region := "global", token := some "secret" }
            "GET" "/v1/jobs")
          (QueryOptions.new.with_auth_token "override")).headers =
      ["override"]) := by
  constructor
  · rfl
  · decide

/-- C2 (amended): the appliers apply present fields in the source order —
for `QueryOptions`: region, namespace, allow-stale, wait-index,
wait-time, prefix, param map, header map, auth token, filter, page size,
continuation token, reverse; for `WriteOptions`: region, namespace, auth
token, header map, idempotency token — and every applied entry is
appended after the existing entries: entries sharing a key accumulate,
the later one follows the earlier one and does not replace it. -/
theorem c2_code_application_order (req : RequestBuilder) (qopts : QueryOptions)
    (wopts : WriteOptions) :
    set_request_query_options req qopts =
      (req.query (query_opts_query_delta qopts)).add_headers (query_opts_header_delta qopts) ∧
    set_request_write_options req wopts =
      (req.query (write_opts_query_delta wopts)).add_headers (write_opts_header_delta wopts) :=
  ⟨set_request_query_options_eq req qopts, set_request_write_options_eq req wopts⟩

/-- C2 fails as stated: applying the documented order (header map before
auth token for `WriteOptions`) with later-overrides-earlier semantics
disagrees with the code on a concrete input — the code appends the auth
token BEFORE the header map and replaces nothing, so both
`X-Nomad-Token` headers survive, override first. -/
theorem c2_counterexample :
    (set_request_write_options
        (build_request
          { address := "http://localhost:4646", region := "global", token := none }
          "POST" "/v1/jobs")
        ((WriteOptions.new.with_auth_token "override").with_headers
          [("X-Nomad-Token", "from-map")])).headers =
      [("X-Nomad-Token", "override"), ("X-Nomad-Token", "from-map")] ∧
    (claimed_set_request_write_options
        (build_request
          { address := "http://localhost:4646", region := "global", token := none }
          "POST" "/v1/jobs")
        ((WriteOptions.new.with_auth_token "override").with_headers
          [("X-Nomad-Token", "from-map")])).headers =
      [("X-Nomad-Token", "override")] ∧
    set_request_write_options
        (build_request
          { address := "http://localhost:4646", region := "global", token := none }
          "POST" "/v1/jobs")
        ((WriteOptions.new.with_auth_token "override").with_headers
          [("X-Nomad-Token", "from-map")]) ≠
      claimed_set_request_write_options
        (build_request
          { address := "http://localhost:4646", region := "global", token := none }
          "POST" "/v1/jobs")
        ((WriteOptions.new.with_auth_token "override").with_headers
          [("X-Nomad-Token", "from-map")]) := by
  refine ⟨rfl, rfl, ?_⟩
  decide

/-- C3 (amended): `build_request` always appends the configured default
region as a query parameter, and a present per-call region is appended as
an additional region parameter right after it — the default remains in
the query string, it is not overridden. -/
theorem c3_default_region_kept (config : Config) (method path : String) (opts : QueryOptions)
    (r : String) (h : opts.region = some r) :
    (build_request config method path).queryParams = [("region", config.region)] ∧
    (set_request_query_options (build_request config method path) opts).queryParams =
      ("region", config.region) :: ("region", r) ::
        query_opts_query_delta { opts with region := none } := by
  constructor
  · rw [build_request_eq]
  · rw [queryParams_set_query_options, build_request_eq]
    simp [query_opts_query_delta, opt_pair, h]

/-- C3 witness: concrete client with default region `global` and options
region `europe`: both region parameters are present, default first. -/
theorem c3_witness :
    ((QueryOptions.new.with_region "europe").region = some "europe") ∧
    (build_request
        { address := "http://localhost:4646", region := "global", token := none }
        "GET" "/v1/jobs").queryParams = [("region", "global")] ∧
    (set_request_query_options
        (build_request
          { address := "http://localhost:4646", region := "global", token := none }
          "GET" "/v1/jobs")
        (QueryOptions.new.with_region "europe")).queryParams =
      ("region", "global") :: ("region", "europe") ::
        query_opts_query_delta { QueryOptions.new.with_region "europe" with region := none } :=
  ⟨rfl,
    (c3_default_region_kept
        { address := "http://localhost:4646", region := "global", token := none }
        "GET" "/v1/jobs" (QueryOptions.new.with_region "europe") "europe" rfl).1,
    (c3_default_region_kept
        { address := "http://localhost:4646", region := "global", token := none }
        "GET" "/v1/jobs" (QueryOptions.new.with_region "europe") "europe" rfl).2⟩

/-- C3 fails as stated: with default region `global` and per-call region
`europe`, the region entries of the final query are `global` then
`europe` — the per-call region does not override the builder default, it
is appended next to it. -/
theorem c3_counterexample :
    key_values "region"
        (set_request_query_options
          (build_request
            { address := "http://localhost:4646", region := "global", token := none }
            "GET" "/v1/jobs")
          (QueryOptions.new.with_region "europe")).queryParams =
      ["global", "europe"] ∧
    ¬ (key_values "region"
        (set_request_query_options
          (build_request
            { address := "http://localhost:4646", region := "global", token := none }
            "GET" "/v1/jobs")
          (QueryOptions.new.with_region "europe")).queryParams =
      ["europe"]) := by
  constructor
  · rfl
  · decide

/-- C4: applying an all-absent options value (`QueryOptions::new` or
`WriteOptions::new`) to a request produced by `build_request` returns
that request unchanged — query parameters, headers and all. -/
theorem c4_all_absent_identity (config : Config) (method path : String) :
    set_request_query_options (build_request config method path) QueryOptions.new =
      build_request config method path ∧
    set_request_write_options (build_request config method path) WriteOptions.new =
      build_request config method path :=
  ⟨set_query_options_new_id _, set_write_options_new_id _⟩

/-- C5: on a non-2xx status both dispatchers return
`ServerError status body` with the body text verbatim, or a
`NetworkError` when reading the body text itself fails; deserialization
is never attempted (the outcome is independent of the json reading and is
never a `DeserializationError`). -/
theorem c5_non_success_server_error {T : Type} (status : Nat) (jr : Except String T)
    (tr : Except String String) (h : is_success status = false) :
    ((send_with_response (Except.ok ()) (Except.ok ⟨status, jr, tr⟩)).result =
      match tr with
      | Except.ok body => Except.error (ClientError.ServerError status body)
      | Except.error err => Except.error (ClientError.NetworkError err)) ∧
    ((send_without_response (Except.ok ()) (Except.ok ⟨status, jr, tr⟩)).result =
      match tr with
      | Except.ok body => Except.error (ClientError.ServerError status body)
      | Except.error err => Except.error (ClientError.NetworkError err)) ∧
    (∀ msg, (send_with_response (Except.ok ()) (Except.ok ⟨status, jr, tr⟩)).result ≠
      Except.error (ClientError.DeserializationError msg)) ∧
    (∀ msg, (send_without_response (Except.ok ()) (Except.ok ⟨status, jr, tr⟩)).result ≠
      Except.error (ClientError.DeserializationError msg)) := by
  refine ⟨?_, ?_, ?_, ?_⟩
  · cases tr <;> simp [send_with_response, h]
  · cases tr <;> simp [send_without_response, h]
  · intro msg; cases tr <;> simp [send_with_response, h]
  · intro msg; cases tr <;> simp [send_without_response, h]

/-- C5 witness: a 404 whose body reads `job not found` yields
`ServerError 404 "job not found"` from both dispatchers. -/
theorem c5_witness :
    is_success 404 = false ∧
    (send_with_response (Except.ok ())
        (Except.ok ⟨404, Except.ok (0 : Nat), Except.ok "job not found"⟩)).result =
      Except.error (ClientError.ServerError 404 "job not found") ∧
    (send_without_response (Except.ok ())
        (Except.ok (⟨404, Except.ok (0 : Nat), Except.ok "job not found"⟩ :
          HttpResponse Nat))).result =
      Except.error (ClientError.ServerError 404 "job not found") :=
  ⟨rfl,
    (c5_non_success_server_error 404 (Except.ok (0 : Nat)) (Except.ok "job not found") rfl).1,
    (c5_non_success_server_error 404 (Except.ok (0 : Nat))
        (Except.ok "job not found") rfl).2.1⟩

/-- C6: on a 2xx status `send_with_response` deserializes the body: on
parser failure it returns `DeserializationError` with the parser's
message, on success the typed value; it never returns a `ServerError`
in that case. -/
theorem c6_success_deserialization {T : Type} (status : Nat) (jr : Except String T)
    (tr : Except String String) (h : is_success status = true) :
    ((send_with_response (Except.ok ()) (Except.ok ⟨status, jr, tr⟩)).result =
      match jr with
      | Except.ok body => Except.ok body
      | Except.error err => Except.error (ClientError.DeserializationError err)) ∧
    (∀ c b, (send_with_response (Except.ok ()) (Except.ok ⟨status, jr, tr⟩)).result ≠
      Except.error (ClientError.ServerError c b)) := by
  refine ⟨?_, ?_⟩
  · cases jr <;> simp [send_with_response, h]
  · intro c b; cases jr <;> simp [send_with_response, h]

/-- C6 witness: a 200 whose body does not match the schema yields a
deserialization error with the parser's message. -/
theorem c6_witness :
    is_success 200 = true ∧
    (send_with_response (Except.ok ())
        (Except.ok ⟨200, (Except.error "missing field Name" : Except String Nat),
          Except.ok ""⟩)).result =
      Except.error (ClientError.DeserializationError "missing field Name") :=
  ⟨rfl,
    (c6_success_deserialization 200 (Except.error "missing field Name" : Except String Nat)
        (Except.ok "") rfl).1⟩

/-- C7: when finalizing the request fails, both dispatchers return
`RequestCreationError` and perform no transport call; when it succeeds,
each performs exactly one transport round trip, whatever the outcome. -/
theorem c7_build_failure_and_single_roundtrip {T : Type} (msg : String)
    (e : Except String (HttpResponse T)) :
    (send_with_response (Except.error msg) e).result =
      Except.error (ClientError.RequestCreationError msg) ∧
    (send_with_response (Except.error msg) e).network_calls = 0 ∧
    (send_without_response (Except.error msg) e).result =
      Except.error (ClientError.RequestCreationError msg) ∧
    (send_without_response (Except.error msg) e).network_calls = 0 ∧
    (send_with_response (Except.ok ()) e).network_calls = 1 ∧
    (send_without_response (Except.ok ()) e).network_calls = 1 :=
  ⟨rfl, rfl, rfl, rfl, network_calls_with_ok e, network_calls_without_ok e⟩

/-- C8: `send_without_response` agrees with `send_with_response` on every
construction-failure, transport-failure and non-2xx outcome, returns
bare success wherever `send_with_response` would deserialize (whether
that deserialization would succeed or fail — the body stays unread),
performs the same number of round trips, and never returns a
deserialization error. -/
theorem c8_without_response_refines {T : Type} (b : Except String Unit)
    (e : Except String (HttpResponse T)) :
    ((send_without_response b e).result =
      match (send_with_response b e).result with
      | Except.ok _ => Except.ok ()
      | Except.error (ClientError.DeserializationError _) => Except.ok ()
      | Except.error err => Except.error err) ∧
    (send_without_response b e).network_calls = (send_with_response b e).network_calls ∧
    (∀ msg, (send_without_response b e).result ≠
      Except.error (ClientError.DeserializationError msg)) := by
  cases b with
  | error msg =>
      refine ⟨rfl, rfl, ?_⟩
      intro m
      simp [send_without_response]
  | ok u =>
    cases e with
    | error msg =>
        refine ⟨rfl, rfl, ?_⟩
        intro m
        simp [send_without_response]
    | ok resp =>
        obtain ⟨s, jr, tr⟩ := resp
        cases hs : is_success s with
        | true =>
            cases jr <;>
              refine ⟨?_, ?_, ?_⟩ <;>
                simp [send_with_response, send_without_response, hs]
        | false =>
            cases tr <;>
              refine ⟨?_, ?_, ?_⟩ <;>
                simp [send_with_response, send_without_response, hs]

/-- C9: with address `http://localhost:4646`, region `global` and no
token: a call with no options carries query `region=global` and no
`X-Nomad-Token` header; with namespace `prod` and wait index 42 it
carries `region=global&namespace=prod&wait_index=42` (numbers in decimal
form); a present boolean is serialized as `true`/`false`. -/
theorem c9_concrete_scenarios :
    (build_request
        { address := "http://localhost:4646", region := "global", token := none }
        "GET" "/v1/jobs").queryParams = [("region", "global")] ∧
    (build_request
        { address := "http://localhost:4646", region := "global", token := none }
        "GET" "/v1/jobs").headers = [] ∧
    render_query (build_request
        { address := "http://localhost:4646", region := "global", token := none }
        "GET" "/v1/jobs").queryParams = "region=global" ∧
    (set_request_query_options
        (build_request
          { address := "http://localhost:4646", region := "global", token := none }
          "GET" "/v1/jobs")
        ((QueryOptions.new.with_namespace "prod").with_wait_index 42)).queryParams =
      [("region", "global"), ("namespace", "prod"), ("wait_index", "42")] ∧
    (set_request_query_options
        (build_request
          { address := "http://localhost:4646", region := "global", token := none }
          "GET" "/v1/jobs")
        ((QueryOptions.new.with_namespace "prod").with_wait_index 42)).headers = [] ∧
    render_query (set_request_query_options
        (build_request
          { address := "http://localhost:4646", region := "global", token := none }
          "GET" "/v1/jobs")
        ((QueryOptions.new.with_namespace "prod").with_wait_index 42)).queryParams =
      "region=global&namespace=prod&wait_index=42" ∧
    (set_request_query_options
        (build_request
          { address := "http://localhost:4646", region := "global", token := none }
          "GET" "/v1/jobs")
        (QueryOptions.new.with_allow_stale true)).queryParams =
      [("region", "global"), ("allow_stale", "true")] ∧
    (set_request_query_options
        (build_request
          { address := "http://localhost:4646", region := "global", token := none }
          "GET" "/v1/jobs")
        (QueryOptions.new.with_allow_stale false)).queryParams =
      [("region", "global"), ("allow_stale", "false")] :=
  ⟨rfl, rfl, rfl, rfl, rfl, rfl, rfl, rfl⟩

/-- C10: every `with_*` builder method on `QueryOptions` and
`WriteOptions` sets exactly its own field to `some` of the supplied value
and leaves every other field unchanged. -/
theorem c10_with_builders_frame (q : QueryOptions) (w : WriteOptions) (s : String) (b : Bool)
    (n : Nat) (i : Int) (m : List (String × String)) :
    q.with_region s = { q with region := some s } ∧
    q.with_namespace s = { q with namespace_ := some s } ∧
    q.with_allow_stale b = { q with allow_stale := some b } ∧
    q.with_wait_index n = { q with wait_index := some n } ∧
    q.with_wait_time n = { q with wait_time := some n } ∧
    QueryOptions.with_prefix q s = { q with prefix_ := some s } ∧
    q.with_params m = { q with params := some m } ∧
    q.with_headers m = { q with headers := some m } ∧
    q.with_auth_token s = { q with auth_token := some s } ∧
    q.with_filter s = { q with filter := some s } ∧
    q.with_per_page i = { q with per_page := some i } ∧
    q.with_next_token s = { q with next_token := some s } ∧
    q.with_reverse b = { q with reverse := some b } ∧
    w.with_region s = { w with region := some s } ∧
    w.with_namespace s = { w with namespace_ := some s } ∧
    w.with_auth_token s = { w with auth_token := some s } ∧
    w.with_headers m = { w with headers := some m } ∧
    w.with_idempotency_token s = { w with idempotency_token := some s } :=
  ⟨rfl, rfl, rfl, rfl, rfl, rfl, rfl, rfl, rfl, rfl, rfl, rfl, rfl, rfl, rfl, rfl, rfl, rfl⟩

end NomadApi
